import Mathlib

/-!
Verification of `groq_playground.py` (Groq Model Comparison Lab).

The program is a single-file Streamlit app.  This file gives a shallow
embedding of its data flow:

* `clean_response`  — the regex-based sanitizer
  `re.sub(r"<think>.*?</think>", "", text, flags=re.DOTALL).strip()`,
  embedded as a left-to-right scan over `List Char` (`scrub`) followed by
  whitespace trimming (`trim`).  The lazy regex matches, at the leftmost
  position where `<think>` occurs with a later `</think>`, the span up to
  the earliest such `</think>`; `re.sub` continues after each match and
  never rescans the already-produced output.
* `call_groq`       — the invoker; the network is modelled by a free
  `RequestOutcome` value (transport/parsing exception, or a completed
  HTTP response with status code, raw text, extracted message content and
  a measured wall-clock duration).  Durations (Python floats) are
  modelled as rationals; none of the checked claims depends on IEEE-754
  rounding.
* `requestPayload` / `runPrompt` — the JSON body built from the UI
  controls and the button handler (blank-prompt guard, two sequential
  calls, per-column rendering, comparison summary).
* `renderColumn` / `comparisonSummary` — the presentation layer,
  including the fixed-point formatting `:.1f` / `:.2f` (modelled with
  round-half-up on exact rationals; the concrete values checked below
  involve no rounding ties, where IEEE-754 double formatting could
  differ).
-/

/-! ## Definitions -/

/-- ASCII whitespace as recognised by Python's `str.strip()` /
`str.split()` (Unicode whitespace beyond ASCII is not modelled; no
checked claim involves it). -/
def isSpaceChar (c : Char) : Bool :=
  c == ' ' || c == '\t' || c == '\n' || c == '\r' || c == '\x0b' || c == '\x0c'

/-- Remove leading and trailing whitespace, as Python's `str.strip()`. -/
def trim (l : List Char) : List Char :=
  ((l.dropWhile isSpaceChar).reverse.dropWhile isSpaceChar).reverse

/-- Python's `s.strip()` on strings. -/
def pyStrip (s : String) : String := ⟨trim s.data⟩

/-- The opening reasoning marker. -/
def opener : List Char := "<think>".data

/-- The closing reasoning marker. -/
def closer : List Char := "</think>".data

/-- Scan for the first occurrence of `</think>`; return the text after it
(the lazy `.*?` of the regex stops at the earliest closing marker). -/
def dropThrough : List Char → Option (List Char)
  | [] => none
  | x :: rest =>
    if closer.isPrefixOf (x :: rest) then some ((x :: rest).drop 8)
    else dropThrough rest

/-- One pass of `re.sub(r"<think>.*?</think>", "", text, flags=re.DOTALL)`:
at each position, if `<think>` matches here and some `</think>` occurs
later, delete through the earliest such `</think>` and continue after it;
otherwise keep the character and move one position right.  `re.sub` never
rescans the text it has already emitted. -/
def scrub (cs : List Char) : List Char :=
  match cs with
  | [] => []
  | x :: rest =>
    match h : dropThrough ((x :: rest).drop 7) with
    | some r =>
      if opener.isPrefixOf (x :: rest) then scrub r else x :: scrub rest
    | none => x :: scrub rest
termination_by cs.length
decreasing_by
  · have hlen : ∀ (cs r : List Char), dropThrough cs = some r → r.length < cs.length := by
      intro cs
      induction cs with
      | nil => intro r hr; simp [dropThrough] at hr
      | cons y t ih =>
        intro r hr
        rw [dropThrough] at hr
        split at hr
        · cases hr
          simp only [List.length_drop, List.length_cons]
          omega
        · have := ih r hr
          simp only [List.length_cons]
          omega
    have h1 := hlen _ _ h
    simp only [List.length_drop, List.length_cons] at h1 ⊢
    omega
  · simp only [List.length_cons]; omega
  · simp only [List.length_cons]; omega

/-- `clean_response` from `groq_playground.py`:
`re.sub(r"<think>.*?</think>", "", text, flags=re.DOTALL).strip()`. -/
def clean_response (text : String) : String := ⟨trim (scrub text.data)⟩

/-- `hasSeg cs` scans for a well-formed delimited segment: an occurrence
of the opening marker followed (anywhere later) by the closing marker. -/
def hasSeg : List Char → Bool
  | [] => false
  | x :: rest =>
    (opener.isPrefixOf (x :: rest) && (dropThrough ((x :: rest).drop 7)).isSome)
      || hasSeg rest

/-- A completed HTTP response, as `call_groq` consumes it:
`status_code`, the raw body `text`, and the result of
`resp.json()["choices"][0]["message"]["content"]` — either the extracted
content, or the message of the exception raised while parsing/indexing. -/
structure HttpResponse where
  status_code : Nat
  text : String
  content : Except String String

/-- The environment of one `requests.post` call: either an exception is
raised (transport failure, or any failure inside the `try` block), or a
response arrives after a measured wall-clock duration. -/
inductive RequestOutcome where
  | exn (msg : String)
  | completed (resp : HttpResponse) (elapsed : ℚ)

/-- `call_groq` from `groq_playground.py`: returns
`(response_text, time_taken)`.  Non-200 status: `"Error: {code} - {body}"`
with time `0.0`; exception `e`: `"Error: {e}"` with time `0.0`; success:
the sanitized first-completion content with the measured duration. -/
def call_groq (prompt model : String) (temperature : ℚ) (max_tokens : Nat)
    (net : RequestOutcome) : String × ℚ :=
  match net with
  | .exn msg => ("Error: " ++ msg, 0)
  | .completed resp elapsed =>
    if resp.status_code ≠ 200 then
      ("Error: " ++ toString resp.status_code ++ " - " ++ resp.text, 0)
    else
      match resp.content with
      | .error msg => ("Error: " ++ msg, 0)
      | .ok content => (clean_response content, elapsed)

/-- The fixed system instruction sent with every request. -/
def systemMessage : String :=
  "You are a helpful assistant. Do not include hidden reasoning steps, thought processes, or <think> tags in your response. Only return the final answer clearly and concisely."

/-- The JSON body `payload` built in `call_groq` (lines 53–69): exactly
`model`, `messages` (system instruction plus the user prompt),
`temperature` and `max_tokens`.  No other generation parameter is part of
the request. -/
structure Payload where
  model : String
  messages : List (String × String)
  temperature : ℚ
  max_tokens : Nat

def requestPayload (prompt model : String) (temperature : ℚ) (max_tokens : Nat) :
    Payload :=
  { model := model
    messages := [("system", systemMessage), ("user", prompt)]
    temperature := temperature
    max_tokens := max_tokens }

/-- The control values captured by the sidebar at the moment the
`Run Prompt` button is pressed.  `max_tokens` is the resolved token
budget (length preset or advanced override); `top_p` and
`frequency_penalty` are captured by the Advanced Options sliders. -/
structure Controls where
  prompt : String
  model_1 : String
  model_2 : String
  temperature : ℚ
  max_tokens : Nat
  top_p : ℚ
  frequency_penalty : ℚ

/-- Python `str.split()` word count: number of maximal runs of
non-whitespace characters. -/
def wcAux : Bool → List Char → Nat
  | _, [] => 0
  | inWord, c :: rest =>
    if isSpaceChar c then wcAux false rest
    else (if inWord then 0 else 1) + wcAux true rest

def wordCount (l : List Char) : Nat := wcAux false l

/-- The derived metrics captions of one result column: response time,
word count, and (only when the duration is positive) words/second. -/
structure Metrics where
  response_time : ℚ
  words : Nat
  speed : Option ℚ

/-- One rendered result column: the result text is always written; the
metrics captions appear only when the text is non-empty and does not
start with `"Error"` (lines 172–177 and 183–188). -/
structure ColumnRender where
  text : String
  metrics : Option Metrics

def renderColumn (output : String) (time : ℚ) : ColumnRender :=
  { text := output
    metrics :=
      if output ≠ "" ∧ "Error".data.isPrefixOf output.data = false then
        some { response_time := time
               words := wordCount output.data
               speed := if 0 < time then some ((wordCount output.data : ℚ) / time) else none }
      else none }

/-- `faster_model = model_1 if time_1 < time_2 else model_2` (line 193). -/
def fasterModel (model_1 model_2 : String) (time_1 time_2 : ℚ) : String :=
  if time_1 < time_2 then model_1 else model_2

/-- `speed_diff = abs(time_1 - time_2)` (line 194). -/
def speedDiff (time_1 time_2 : ℚ) : ℚ := |time_1 - time_2|

/-- `speed_ratio = max(time_1, time_2) / min(time_1, time_2)` (line 195). -/
def speedRatio (time_1 time_2 : ℚ) : ℚ := max time_1 time_2 / min time_1 time_2

/-- Decimal digits of a natural number, most significant first (the fuel
argument makes the definition structurally recursive and
kernel-evaluable). -/
def natDigits : Nat → Nat → List Char
  | 0, _ => []
  | fuel + 1, n =>
    if n < 10 then [Nat.digitChar n]
    else natDigits fuel (n / 10) ++ [Nat.digitChar (n % 10)]

def natStr (n : Nat) : String := ⟨natDigits (n + 1) n⟩

/-- Render `scaled / 10^dp` with exactly `dp` digits after the point. -/
def formatScaled (dp scaled : Nat) : String :=
  natStr (scaled / 10 ^ dp) ++
    (if dp = 0 then ""
     else "." ++ ⟨List.replicate (dp - (natDigits (scaled % 10 ^ dp + 1) (scaled % 10 ^ dp)).length) '0'
                    ++ natDigits (scaled % 10 ^ dp + 1) (scaled % 10 ^ dp)⟩)

/-- Python's fixed-point formatting `f"{q:.dp}f"` on an exact rational:
round `|q| · 10^dp` to the nearest integer (ties rounded up; the concrete
values checked in this file are never ties, where CPython's
round-half-even on binary doubles could differ) and print with `dp`
digits after the decimal point. -/
def formatFixed (dp : Nat) (q : ℚ) : String :=
  (if q < 0 then "-" else "") ++ formatScaled dp (⌊|q| * 10 ^ dp + 1 / 2⌋).toNat

/-- The comparison summary (lines 190–196): rendered only when both
durations are positive; the message is
`f"{faster_model} was {speed_ratio:.1f}x faster ({speed_diff:.2f}s difference)"`. -/
def comparisonSummary (model_1 model_2 : String) (time_1 time_2 : ℚ) :
    Option String :=
  if 0 < time_1 ∧ 0 < time_2 then
    some (fasterModel model_1 model_2 time_1 time_2 ++ " was "
      ++ formatFixed 1 (speedRatio time_1 time_2) ++ "x faster ("
      ++ formatFixed 2 (speedDiff time_1 time_2) ++ "s difference)")
  else none

/-- Everything the `Run Prompt` button handler does (lines 145–196),
summarised as observable outcome: whether the blank-prompt warning was
shown, which HTTP request bodies were issued, and the two results
rendered in the columns (`none` when no columns were created).  The two
network environments `net1`, `net2` stand for the two independent calls. -/
structure RunResult where
  warned : Bool
  calls : List Payload
  columns : Option ((String × ℚ) × (String × ℚ))

def runPrompt (c : Controls) (net1 net2 : RequestOutcome) : RunResult :=
  if pyStrip c.prompt = "" then
    { warned := true, calls := [], columns := none }
  else
    { warned := false
      calls := [requestPayload c.prompt c.model_1 c.temperature c.max_tokens,
                requestPayload c.prompt c.model_2 c.temperature c.max_tokens]
      columns := some (call_groq c.prompt c.model_1 c.temperature c.max_tokens net1,
                       call_groq c.prompt c.model_2 c.temperature c.max_tokens net2) }

/-! ## Sanitizer lemmas -/

theorem scrub_nil : scrub [] = [] := by rw [scrub]

theorem scrub_skip {x : Char} {rest r : List Char}
    (h2 : dropThrough ((x :: rest).drop 7) = some r)
    (h1 : opener.isPrefixOf (x :: rest) = true) :
    scrub (x :: rest) = scrub r := by
  rw [scrub, h2]
  simp [h1]

theorem scrub_keep_noClose {x : Char} {rest : List Char}
    (h2 : dropThrough ((x :: rest).drop 7) = none) :
    scrub (x :: rest) = x :: scrub rest := by
  rw [scrub, h2]

theorem scrub_keep_noOpen {x : Char} {rest : List Char}
    (h1 : opener.isPrefixOf (x :: rest) = false) :
    scrub (x :: rest) = x :: scrub rest := by
  rw [scrub]
  split
  · simp [h1]
  · rfl

theorem self_isPrefixOf_append (p t : List Char) : p.isPrefixOf (p ++ t) = true :=
  List.isPrefixOf_iff_prefix.2 ⟨t, rfl⟩

theorem dropThrough_closer_append (d : List Char) :
    dropThrough (closer ++ d) = some d := by
  show dropThrough ('<' :: ('/' :: 't' :: 'h' :: 'i' :: 'n' :: 'k' :: '>' :: d)) = some d
  rw [dropThrough]
  split
  · rfl
  · next hfalse => exact absurd (self_isPrefixOf_append closer d) hfalse

/-- If no occurrence of `</think>` starts inside `b`, the first closing
marker in `b ++ </think> ++ d` is the displayed one. -/
theorem dropThrough_first (b d : List Char)
    (hb : ∀ j, j < b.length → ¬ closer <+: (b.drop j ++ (closer ++ d))) :
    dropThrough (b ++ (closer ++ d)) = some d := by
  induction b with
  | nil => rw [List.nil_append]; exact dropThrough_closer_append d
  | cons x b' ih =>
    rw [List.cons_append, dropThrough]
    split
    · next hc =>
      have h0 := hb 0 (by simp only [List.length_cons]; omega)
      rw [List.drop_zero, List.cons_append] at h0
      exact absurd (List.isPrefixOf_iff_prefix.1 hc) h0
    · exact ih fun j hj => by
        have := hb (j + 1) (by simp only [List.length_cons]; omega)
        rwa [List.drop_succ_cons] at this

theorem dropThrough_some_decomp {t r : List Char} (h : dropThrough t = some r) :
    ∃ b, t = b ++ (closer ++ r) := by
  induction t with
  | nil => simp [dropThrough] at h
  | cons x t' ih =>
    rw [dropThrough] at h
    split at h
    · next hc =>
      obtain ⟨u, hu⟩ := List.isPrefixOf_iff_prefix.1 hc
      have hdrop : (x :: t').drop 8 = u := by
        rw [← hu]; exact List.drop_left closer u
      refine ⟨[], ?_⟩
      cases h
      rw [List.nil_append, hdrop, hu]
    · obtain ⟨b, hb⟩ := ih h
      exact ⟨x :: b, by rw [hb, List.cons_append]⟩

theorem dropThrough_append_isSome (b d : List Char) :
    (dropThrough (b ++ (closer ++ d))).isSome = true := by
  induction b with
  | nil => rw [List.nil_append, dropThrough_closer_append]; rfl
  | cons x b' ih =>
    rw [List.cons_append, dropThrough]
    split
    · rfl
    · exact ih

/-- First-match behaviour of the lazy `re.sub` scan: if no opening marker
starts inside `a` and no closing marker starts inside `b`, then the scan
removes exactly `<think> ++ b ++ </think>` and continues on `d`. -/
theorem scrub_first (a b d : List Char)
    (ha : ∀ j, j < a.length → ¬ opener <+: (a.drop j ++ (opener ++ (b ++ (closer ++ d)))))
    (hb : ∀ j, j < b.length → ¬ closer <+: (b.drop j ++ (closer ++ d))) :
    scrub (a ++ (opener ++ (b ++ (closer ++ d)))) = a ++ scrub d := by
  induction a with
  | nil =>
    rw [List.nil_append, List.nil_append]
    show scrub ('<' :: ('t' :: 'h' :: 'i' :: 'n' :: 'k' :: '>' :: (b ++ (closer ++ d)))) = scrub d
    exact scrub_skip (dropThrough_first b d hb) (self_isPrefixOf_append opener _)
  | cons x a' ih =>
    rw [List.cons_append]
    cases hcb : opener.isPrefixOf (x :: (a' ++ (opener ++ (b ++ (closer ++ d))))) with
    | true =>
      have h0 := ha 0 (by simp only [List.length_cons]; omega)
      rw [List.drop_zero, List.cons_append] at h0
      exact absurd (List.isPrefixOf_iff_prefix.1 hcb) h0
    | false =>
      rw [scrub_keep_noOpen hcb]
      rw [ih fun j hj => by
        have := ha (j + 1) (by simp only [List.length_cons]; omega)
        rwa [List.drop_succ_cons] at this]
      rw [List.cons_append]

/-- When the text has no well-formed delimited segment, the scan leaves it
unchanged. -/
theorem scrub_of_hasSeg_false {cs : List Char} (h : hasSeg cs = false) :
    scrub cs = cs := by
  induction cs with
  | nil => exact scrub_nil
  | cons x rest ih =>
    rw [hasSeg] at h
    rw [Bool.or_eq_false_iff, Bool.and_eq_false_iff] at h
    obtain ⟨h1, h2⟩ := h
    cases hdt : dropThrough ((x :: rest).drop 7) with
    | none => rw [scrub_keep_noClose hdt, ih h2]
    | some r =>
      have h1' : opener.isPrefixOf (x :: rest) = false := by
        rcases h1 with h1 | h1
        · exact h1
        · rw [hdt] at h1; simp at h1
      rw [scrub_keep_noOpen h1', ih h2]

/-- `hasSeg` is exactly the existence of a well-formed delimited segment:
an occurrence of `<think>` followed later by `</think>`. -/
theorem hasSeg_iff {cs : List Char} :
    hasSeg cs = true ↔ ∃ a b d, cs = a ++ (opener ++ (b ++ (closer ++ d))) := by
  induction cs with
  | nil =>
    simp only [hasSeg]
    constructor
    · intro h; cases h
    · rintro ⟨a, b, d, hcs⟩
      exact absurd (congrArg List.length hcs) (by simp [opener]; omega)
  | cons x rest ih =>
    rw [hasSeg, Bool.or_eq_true, Bool.and_eq_true]
    constructor
    · rintro (⟨hpre, hsome⟩ | htail)
      · obtain ⟨t, ht⟩ := List.isPrefixOf_iff_prefix.1 hpre
        obtain ⟨r, hr⟩ := Option.isSome_iff_exists.1 hsome
        have hdrop : (x :: rest).drop 7 = t := by
          rw [← ht]; exact List.drop_left opener t
        rw [hdrop] at hr
        obtain ⟨b, hbt⟩ := dropThrough_some_decomp hr
        exact ⟨[], b, r, by rw [List.nil_append, ← ht, hbt]⟩
      · obtain ⟨a, b, d, hcs⟩ := ih.1 htail
        exact ⟨x :: a, b, d, by rw [hcs, List.cons_append]⟩
    · rintro ⟨a, b, d, hcs⟩
      cases a with
      | nil =>
        rw [List.nil_append] at hcs
        left
        constructor
        · rw [hcs]; exact self_isPrefixOf_append opener _
        · have hdrop : (x :: rest).drop 7 = b ++ (closer ++ d) := by
            rw [hcs]; exact List.drop_left opener _
          rw [hdrop]
          exact dropThrough_append_isSome b d
      | cons y a' =>
        rw [List.cons_append] at hcs
        injection hcs with hx hrest
        right
        exact ih.2 ⟨a', b, d, hrest⟩

/-! ## Helper lemmas for the claims -/

theorem empty_str_append (s : String) : "" ++ s = s := by
  obtain ⟨l⟩ := s
  rfl

theorem str_append_assoc (a b c : String) : a ++ b ++ c = a ++ (b ++ c) := by
  obtain ⟨la⟩ := a
  obtain ⟨lb⟩ := b
  obtain ⟨lc⟩ := c
  show String.mk (la ++ lb ++ lc) = String.mk (la ++ (lb ++ lc))
  rw [List.append_assoc]

theorem error_isPrefix (s : String) : "Error".data <+: ("Error: " ++ s).data := by
  rw [String.data_append]
  refine ⟨": ".data ++ s.data, ?_⟩
  rw [← List.append_assoc]
  have h5 : "Error".data ++ ": ".data = "Error: ".data := by decide
  rw [h5]

theorem renderColumn_metrics_none (out : String) (t : ℚ)
    (h : out = "" ∨ "Error".data.isPrefixOf out.data = true) :
    (renderColumn out t).metrics = none := by
  simp only [renderColumn]
  rw [if_neg]
  rintro ⟨h1, h2⟩
  rcases h with h | h
  · exact h1 h
  · rw [h] at h2; cases h2

theorem pyStrip_blank (s : String) (h : s.data.all isSpaceChar = true) :
    pyStrip s = "" := by
  have h1 : s.data.dropWhile isSpaceChar = [] :=
    List.dropWhile_eq_nil_iff.2 (by intro x hx; exact List.all_eq_true.1 h x hx)
  unfold pyStrip trim
  rw [h1]
  rfl

theorem call_groq_200_ok (prompt model rawBody content : String) (temperature : ℚ)
    (max_tokens : Nat) (elapsed : ℚ) :
    call_groq prompt model temperature max_tokens
        (.completed ⟨200, rawBody, .ok content⟩ elapsed)
      = (clean_response content, elapsed) := by
  simp [call_groq]

theorem formatFixed_eval (dp : Nat) (q : ℚ) (n : ℕ)
    (h0 : ¬ q < 0) (h : ⌊|q| * 10 ^ dp + 1 / 2⌋ = (n : ℤ)) :
    formatFixed dp q = formatScaled dp n := by
  unfold formatFixed
  rw [if_neg h0, h, Int.toNat_natCast]
  exact empty_str_append _

theorem speedRatio_half_one : speedRatio (1/2) 1 = 2 := by
  unfold speedRatio
  rw [max_eq_right (by norm_num : (1:ℚ)/2 ≤ 1), min_eq_left (by norm_num : (1:ℚ)/2 ≤ 1)]
  norm_num

theorem speedDiff_half_one : speedDiff (1/2) 1 = 1/2 := by
  unfold speedDiff
  rw [(by norm_num : (1:ℚ)/2 - 1 = -(1/2)), abs_neg,
    abs_of_nonneg (by norm_num : (0:ℚ) ≤ 1/2)]

theorem formatFixed_two : formatFixed 1 (2:ℚ) = "2.0" :=
  (formatFixed_eval 1 2 20 (by norm_num) (by norm_num)).trans (by decide)

theorem formatFixed_half : formatFixed 2 ((1:ℚ)/2) = "0.50" :=
  (formatFixed_eval 2 (1/2) 50 (by norm_num)
    (by rw [abs_of_nonneg (by norm_num : (0:ℚ) ≤ 1/2)]; norm_num)).trans (by decide)

/-- The summary line at the spec's end-to-end durations 0.50 s and 1.00 s. -/
theorem summary_half_one (m1 m2 : String) :
    comparisonSummary m1 m2 (1/2) 1
      = some (m1 ++ " was 2.0x faster (0.50s difference)") := by
  unfold comparisonSummary
  rw [if_pos ⟨by norm_num, one_pos⟩, speedRatio_half_one, speedDiff_half_one,
    formatFixed_two, formatFixed_half]
  unfold fasterModel
  rw [if_pos (by norm_num : (1:ℚ)/2 < 1)]
  congr 1
  rw [str_append_assoc, str_append_assoc, str_append_assoc, str_append_assoc]
  congr 1

theorem isPrefix_data_append (p : List Char) (a b : String) (h : p <+: a.data) :
    p <+: (a ++ b).data := by
  rw [String.data_append]
  exact h.trans (List.prefix_append a.data b.data)

/-! ## Claims -/

/-- C1: for every invocation of `call_groq` in which the HTTP response has
a non-success status code or the call raises a transport/parsing
exception, the returned result text begins with the literal prefix
`"Error"` (containing the status code and raw response body, or the
exception's message respectively) and the returned elapsed time equals
exactly `0.0`. -/
theorem call_groq_failure_error_zero (prompt model : String) (temperature : ℚ)
    (max_tokens : Nat) (msg e rawBody : String) (resp : HttpResponse) (elapsed : ℚ) :
    (call_groq prompt model temperature max_tokens (.exn msg) = ("Error: " ++ msg, 0)
      ∧ "Error".data <+: (call_groq prompt model temperature max_tokens (.exn msg)).1.data)
    ∧ (resp.status_code ≠ 200 →
        call_groq prompt model temperature max_tokens (.completed resp elapsed)
          = ("Error: " ++ toString resp.status_code ++ " - " ++ resp.text, 0)
        ∧ "Error".data <+:
            (call_groq prompt model temperature max_tokens (.completed resp elapsed)).1.data)
    ∧ (call_groq prompt model temperature max_tokens
          (.completed ⟨200, rawBody, .error e⟩ elapsed) = ("Error: " ++ e, 0)
        ∧ "Error".data <+:
            (call_groq prompt model temperature max_tokens
              (.completed ⟨200, rawBody, .error e⟩ elapsed)).1.data) := by
  refine ⟨⟨rfl, error_isPrefix msg⟩, fun h => ?_, ?_⟩
  · have heq : call_groq prompt model temperature max_tokens (.completed resp elapsed)
        = ("Error: " ++ toString resp.status_code ++ " - " ++ resp.text, 0) := by
      simp only [call_groq]
      rw [if_pos h]
    refine ⟨heq, ?_⟩
    rw [heq]
    exact isPrefix_data_append _ _ resp.text
      (isPrefix_data_append _ _ " - " (error_isPrefix (toString resp.status_code)))
  · have heq : call_groq prompt model temperature max_tokens
        (.completed ⟨200, rawBody, .error e⟩ elapsed) = ("Error: " ++ e, 0) := by
      simp [call_groq]
    refine ⟨heq, ?_⟩
    rw [heq]
    exact error_isPrefix e

/-- C1 witness: a concrete 500 response is reported as an error string
with zero elapsed time. -/
theorem call_groq_failure_error_zero_witness :
    ((500:Nat) ≠ 200)
    ∧ call_groq "Say hi" "llama-3.1-8b-instant" (7/10) 400
        (.completed ⟨500, "server exploded", .ok "x"⟩ (3/2))
        = ("Error: " ++ toString (500:Nat) ++ " - " ++ "server exploded", 0) :=
  ⟨by decide,
    ((call_groq_failure_error_zero "Say hi" "llama-3.1-8b-instant" (7/10) 400
      "m" "e" "x" ⟨500, "server exploded", .ok "x"⟩ (3/2)).2.1 (by decide)).1⟩

/-- C3: for every invocation of `call_groq` in which the endpoint returns
status 200 with a well-formed body, the returned result text equals
`clean_response` applied to the first completion's message content, and
the returned elapsed time is strictly greater than zero (equal to the
measured wall-clock duration, which is positive whenever the clock
advanced during the call). -/
theorem call_groq_success_sanitized (prompt model rawBody content : String)
    (temperature elapsed : ℚ) (max_tokens : Nat) (h : 0 < elapsed) :
    call_groq prompt model temperature max_tokens
        (.completed ⟨200, rawBody, .ok content⟩ elapsed)
      = (clean_response content, elapsed)
    ∧ 0 < (call_groq prompt model temperature max_tokens
        (.completed ⟨200, rawBody, .ok content⟩ elapsed)).2 := by
  refine ⟨call_groq_200_ok prompt model rawBody content temperature max_tokens elapsed, ?_⟩
  rw [call_groq_200_ok]
  exact h

/-- C3 witness at the spec's mocked scenario. -/
theorem call_groq_success_sanitized_witness :
    (0:ℚ) < 1
    ∧ call_groq "Say hi" "llama-3.1-8b-instant" (7/10) 400
        (.completed ⟨200, "", .ok "Hello there"⟩ 1)
        = (clean_response "Hello there", 1) :=
  ⟨one_pos,
    (call_groq_success_sanitized "Say hi" "llama-3.1-8b-instant" "" "Hello there"
      (7/10) 1 400 one_pos).1⟩

/-- C6: the HTTP request payload is independent of the `top_p` and
`frequency_penalty` control values — two runs differing only in those two
sliders issue identical requests (and behave identically altogether); the
body consists exactly of `model`, `messages`, `temperature`,
`max_tokens`. -/
theorem run_independent_of_top_p_frequency_penalty (c : Controls) (tp fp : ℚ)
    (net1 net2 : RequestOutcome) :
    runPrompt { c with top_p := tp, frequency_penalty := fp } net1 net2
      = runPrompt c net1 net2
    ∧ requestPayload c.prompt c.model_1 c.temperature c.max_tokens
      = { model := c.model_1
          messages := [("system", systemMessage), ("user", c.prompt)]
          temperature := c.temperature
          max_tokens := c.max_tokens } :=
  ⟨rfl, rfl⟩

/-- C8: submitting a blank (whitespace-only or empty) prompt issues no
network request, renders no result columns, and shows the warning. -/
theorem blank_prompt_no_call (c : Controls) (net1 net2 : RequestOutcome)
    (h : c.prompt.data.all isSpaceChar = true) :
    (runPrompt c net1 net2).warned = true
    ∧ (runPrompt c net1 net2).calls = []
    ∧ (runPrompt c net1 net2).columns = none := by
  have hblank := pyStrip_blank c.prompt h
  unfold runPrompt
  rw [if_pos hblank]
  exact ⟨rfl, rfl, rfl⟩

/-- C8 witness on a whitespace-only prompt. -/
theorem blank_prompt_no_call_witness :
    (("  \n ":String).data.all isSpaceChar = true)
    ∧ (runPrompt ⟨"  \n ", "llama-3.1-8b-instant", "gemma2-9b-it", 7/10, 400, 9/10, 0⟩
        (.exn "a") (.exn "b")).calls = []
    ∧ (runPrompt ⟨"  \n ", "llama-3.1-8b-instant", "gemma2-9b-it", 7/10, 400, 9/10, 0⟩
        (.exn "a") (.exn "b")).columns = none :=
  ⟨by decide,
    (blank_prompt_no_call _ (.exn "a") (.exn "b") (by decide)).2.1,
    (blank_prompt_no_call _ (.exn "a") (.exn "b") (by decide)).2.2⟩

/-- C4 (amended): the named faster model is the one with strictly smaller
duration; when the two durations are exactly equal the SECOND model
(`model_2`) is the one named — on a tie `time_1 < time_2` is false, so the
conditional expression picks `model_2`, not `model_1`. -/
theorem faster_model_named (m1 m2 : String) (t1 t2 : ℚ) :
    (t1 < t2 → fasterModel m1 m2 t1 t2 = m1)
    ∧ (t2 < t1 → fasterModel m1 m2 t1 t2 = m2)
    ∧ (t1 = t2 → fasterModel m1 m2 t1 t2 = m2) := by
  unfold fasterModel
  exact ⟨fun h => if_pos h, fun h => if_neg (not_lt.2 h.le),
    fun h => if_neg (by rw [h]; exact lt_irrefl t2)⟩

/-- C4 witness: the three cases at concrete durations. -/
theorem faster_model_named_witness :
    ((1:ℚ) < 2 ∧ fasterModel "llama-3.1-8b-instant" "gemma2-9b-it" 1 2 = "llama-3.1-8b-instant")
    ∧ ((1:ℚ) < 2 ∧ fasterModel "llama-3.1-8b-instant" "gemma2-9b-it" 2 1 = "gemma2-9b-it")
    ∧ ((1:ℚ) = 1 ∧ fasterModel "llama-3.1-8b-instant" "gemma2-9b-it" 1 1 = "gemma2-9b-it") :=
  ⟨⟨one_lt_two, (faster_model_named "llama-3.1-8b-instant" "gemma2-9b-it" 1 2).1 one_lt_two⟩,
   ⟨one_lt_two, (faster_model_named "llama-3.1-8b-instant" "gemma2-9b-it" 2 1).2.1 one_lt_two⟩,
   ⟨rfl, (faster_model_named "llama-3.1-8b-instant" "gemma2-9b-it" 1 1).2.2 rfl⟩⟩

/-- C4 counterexample to the claim as stated: with both durations equal
(T1 = T2 = 1), the model named in the summary is `model_2`
("gemma2-9b-it"), not the first model as the claim asserts. -/
theorem faster_model_tie_cex :
    fasterModel "llama-3.1-8b-instant" "gemma2-9b-it" 1 1 = "gemma2-9b-it"
    ∧ comparisonSummary "llama-3.1-8b-instant" "gemma2-9b-it" 1 1
        = some ("gemma2-9b-it" ++ " was 1.0x faster (0.00s difference)")
    ∧ ("gemma2-9b-it" : String) ≠ "llama-3.1-8b-instant" := by
  have hfm : fasterModel "llama-3.1-8b-instant" "gemma2-9b-it" 1 1 = "gemma2-9b-it" := by
    unfold fasterModel
    exact if_neg (lt_irrefl (1:ℚ))
  refine ⟨hfm, ?_, by decide⟩
  have hr : speedRatio (1:ℚ) 1 = 1 := by
    unfold speedRatio
    rw [max_self, min_self]
    exact div_self one_ne_zero
  have hd : speedDiff (1:ℚ) 1 = 0 := by
    unfold speedDiff
    rw [sub_self, abs_zero]
  have hf1 : formatFixed 1 (1:ℚ) = "1.0" :=
    (formatFixed_eval 1 1 10 (by norm_num) (by norm_num)).trans (by decide)
  have hf2 : formatFixed 2 (0:ℚ) = "0.00" :=
    (formatFixed_eval 2 0 0 (by norm_num) (by norm_num)).trans (by decide)
  unfold comparisonSummary
  rw [if_pos ⟨one_pos, one_pos⟩, hr, hd, hf1, hf2, hfm]
  decide

/-- C5: the comparative summary is rendered iff both durations are
strictly positive, in which case the line is built from the ratio
`max(T1,T2)/min(T1,T2)` — always at least 1 — and the absolute difference
`|T1 - T2|`. -/
theorem comparison_summary_conditions (m1 m2 : String) (t1 t2 : ℚ) :
    ((comparisonSummary m1 m2 t1 t2).isSome = true ↔ 0 < t1 ∧ 0 < t2)
    ∧ (0 < t1 → 0 < t2 →
        comparisonSummary m1 m2 t1 t2
          = some (fasterModel m1 m2 t1 t2 ++ " was "
              ++ formatFixed 1 (max t1 t2 / min t1 t2) ++ "x faster ("
              ++ formatFixed 2 |t1 - t2| ++ "s difference)")
        ∧ 1 ≤ max t1 t2 / min t1 t2
        ∧ speedDiff t1 t2 = |t1 - t2|) := by
  constructor
  · by_cases hc : 0 < t1 ∧ 0 < t2
    · simp [comparisonSummary, hc]
    · simp [comparisonSummary, hc]
  · intro h1 h2
    refine ⟨?_, ?_, rfl⟩
    · unfold comparisonSummary speedRatio speedDiff
      rw [if_pos ⟨h1, h2⟩]
    · have hmin : 0 < min t1 t2 := lt_min h1 h2
      rw [le_div_iff₀ hmin, one_mul]
      exact min_le_max

/-- C5 witness at durations 1 s and 2 s. -/
theorem comparison_summary_conditions_witness :
    (0:ℚ) < 1 ∧ (0:ℚ) < 2
    ∧ (comparisonSummary "llama-3.1-8b-instant" "gemma2-9b-it" 1 2
        = some (fasterModel "llama-3.1-8b-instant" "gemma2-9b-it" 1 2 ++ " was "
            ++ formatFixed 1 (max (1:ℚ) 2 / min (1:ℚ) 2) ++ "x faster ("
            ++ formatFixed 2 |(1:ℚ) - 2| ++ "s difference)")
       ∧ 1 ≤ max (1:ℚ) 2 / min (1:ℚ) 2
       ∧ speedDiff 1 2 = |(1:ℚ) - 2|) :=
  ⟨one_pos, two_pos,
    (comparison_summary_conditions "llama-3.1-8b-instant" "gemma2-9b-it" 1 2).2
      one_pos two_pos⟩

/-- C7 (amended): the summary line formats the slower-to-faster ratio to
ONE decimal place (`:.1f`) and the absolute time difference to two
(`:.2f`); for durations 0.50 s and 1.00 s it reads
"<model_1> was 2.0x faster (0.50s difference)". -/
theorem summary_decimal_formatting (m1 m2 : String) (t1 t2 : ℚ)
    (h1 : 0 < t1) (h2 : 0 < t2) :
    comparisonSummary m1 m2 t1 t2
      = some (fasterModel m1 m2 t1 t2 ++ " was "
          ++ formatFixed 1 (speedRatio t1 t2) ++ "x faster ("
          ++ formatFixed 2 (speedDiff t1 t2) ++ "s difference)")
    ∧ comparisonSummary m1 m2 (1/2) 1
        = some (m1 ++ " was 2.0x faster (0.50s difference)") := by
  refine ⟨?_, summary_half_one m1 m2⟩
  unfold comparisonSummary
  rw [if_pos ⟨h1, h2⟩]

/-- C7 witness at the spec's end-to-end durations. -/
theorem summary_decimal_formatting_witness :
    (0:ℚ) < 1/2 ∧ (0:ℚ) < 1
    ∧ comparisonSummary "llama-3.1-8b-instant" "gemma2-9b-it" (1/2) 1
        = some ("llama-3.1-8b-instant" ++ " was 2.0x faster (0.50s difference)") :=
  ⟨one_half_pos, one_pos,
    (summary_decimal_formatting "llama-3.1-8b-instant" "gemma2-9b-it" (1/2) 1
      one_half_pos one_pos).2⟩

/-- C7 counterexample to the claim as stated: at durations 0.50 s and
1.00 s the rendered ratio text is "2.0" (one decimal place); a
two-decimal rendering would be "2.00", which appears nowhere in the
line. -/
theorem summary_two_decimal_cex :
    comparisonSummary "llama-3.1-8b-instant" "gemma2-9b-it" (1/2) 1
      = some ("llama-3.1-8b-instant" ++ " was 2.0x faster (0.50s difference)")
    ∧ formatFixed 2 (speedRatio (1/2) 1) = "2.00"
    ∧ ¬ ("2.00".data <:+:
        ("llama-3.1-8b-instant" ++ " was 2.0x faster (0.50s difference)").data) := by
  refine ⟨summary_half_one "llama-3.1-8b-instant" "gemma2-9b-it", ?_, by decide⟩
  rw [speedRatio_half_one]
  exact (formatFixed_eval 2 2 200 (by norm_num) (by norm_num)).trans (by decide)

/-- C2 (amended): `clean_response` is a pure deterministic function.  For
every input with zero well-formed delimited segments (no opening marker
followed later by a closing marker) the output equals the input with
surrounding whitespace trimmed.  For an input with a segment, the scan
removes the leftmost match — from the first opening-marker occurrence
through the earliest closing marker after it — and continues on the rest
without rescanning; the removed span is gone, but text equal to a
well-formed segment of the input may still appear in the output through
juxtaposition of the surviving pieces
(counterexample `clean_response_segment_survives_cex`). -/
theorem clean_response_characterization (s : String) (a b d : List Char) :
    ((¬ ∃ a' b' d', s.data = a' ++ (opener ++ (b' ++ (closer ++ d')))) →
        clean_response s = pyStrip s)
    ∧ (s.data = a ++ (opener ++ (b ++ (closer ++ d))) →
       (∀ j, j < a.length → ¬ opener <+: (a.drop j ++ (opener ++ (b ++ (closer ++ d))))) →
       (∀ j, j < b.length → ¬ closer <+: (b.drop j ++ (closer ++ d))) →
        clean_response s = ⟨trim (a ++ scrub d)⟩) := by
  constructor
  · intro hno
    have hb : hasSeg s.data = false := by
      cases hsb : hasSeg s.data with
      | false => rfl
      | true => exact absurd (hasSeg_iff.1 hsb) hno
    unfold clean_response pyStrip
    rw [scrub_of_hasSeg_false hb]
  · intro hdec hha hhb
    unfold clean_response
    rw [hdec, scrub_first a b d hha hhb]

/-- C2 witness: a marker-free text is only trimmed; a single well-formed
segment is removed as the leftmost match. -/
theorem clean_response_characterization_witness :
    (¬ ∃ a' b' d', ("no markers here":String).data
        = a' ++ (opener ++ (b' ++ (closer ++ d'))))
    ∧ clean_response "no markers here" = pyStrip "no markers here"
    ∧ (" pre <think>reasoning</think> post ":String).data
        = " pre ".data ++ (opener ++ ("reasoning".data ++ (closer ++ " post ".data)))
    ∧ (∀ j, j < " pre ".data.length →
        ¬ opener <+: (" pre ".data.drop j
            ++ (opener ++ ("reasoning".data ++ (closer ++ " post ".data)))))
    ∧ (∀ j, j < "reasoning".data.length →
        ¬ closer <+: ("reasoning".data.drop j ++ (closer ++ " post ".data)))
    ∧ clean_response " pre <think>reasoning</think> post "
        = ⟨trim (" pre ".data ++ scrub " post ".data)⟩ := by
  have hno : ¬ ∃ a' b' d', ("no markers here":String).data
      = a' ++ (opener ++ (b' ++ (closer ++ d'))) :=
    fun hEx =>
      (by decide : ¬ (hasSeg ("no markers here":String).data = true)) (hasSeg_iff.2 hEx)
  exact ⟨hno, (clean_response_characterization "no markers here" [] [] []).1 hno,
    by decide, by decide, by decide,
    (clean_response_characterization " pre <think>reasoning</think> post "
      " pre ".data "reasoning".data " post ".data).2 (by decide) (by decide) (by decide)⟩

/-- C2 counterexample to the claim as stated: the input decomposes around
the well-formed segment `<think>Z</think>` (markers and content), yet the
output of `clean_response` is exactly that segment — the surviving pieces
`"<thi"` and `"nk>Z</think>"` juxtapose to a copy of it, so the segment
is not absent from the output. -/
theorem clean_response_segment_survives_cex :
    ("<thi<think>A<think>Z</think>nk>Z</think>":String).data
      = "<thi<think>A".data ++ (opener ++ ("Z".data ++ (closer ++ "nk>Z</think>".data)))
    ∧ clean_response "<thi<think>A<think>Z</think>nk>Z</think>" = "<think>Z</think>"
    ∧ (opener ++ ("Z".data ++ closer)) <:+:
        (clean_response "<thi<think>A<think>Z</think>nk>Z</think>").data := by
  have hclean : clean_response "<thi<think>A<think>Z</think>nk>Z</think>"
      = "<think>Z</think>" := by
    unfold clean_response
    rw [(by decide : ("<thi<think>A<think>Z</think>nk>Z</think>":String).data
          = "<thi".data ++ (opener ++ ("A<think>Z".data ++ (closer ++ "nk>Z</think>".data)))),
      scrub_first "<thi".data "A<think>Z".data "nk>Z</think>".data (by decide) (by decide),
      scrub_of_hasSeg_false (by decide)]
    decide
  exact ⟨by decide, hclean, by rw [hclean]; decide⟩

/-- C9 (amended): for an input that contains an opening marker with no
subsequent closing marker and no well-formed segment at all (every
opening marker is unterminated), the sanitizer leaves the marker and all
text after it in place: the output is the input with only surrounding
whitespace trimmed.  When a well-formed segment precedes the unterminated
marker, that segment is still removed
(counterexample `unterminated_marker_cex`). -/
theorem unterminated_marker_untouched (s : String) (a b : List Char)
    (hmark : s.data = a ++ (opener ++ b))
    (hnoseg : ¬ ∃ a' b' d', s.data = a' ++ (opener ++ (b' ++ (closer ++ d')))) :
    clean_response s = pyStrip s := by
  have hb : hasSeg s.data = false := by
    cases hsb : hasSeg s.data with
    | false => rfl
    | true => exact absurd (hasSeg_iff.1 hsb) hnoseg
  unfold clean_response pyStrip
  rw [scrub_of_hasSeg_false hb]

/-- C9 witness on a text whose only marker is unterminated. -/
theorem unterminated_marker_untouched_witness :
    ("tail <think> unterminated":String).data
      = "tail ".data ++ (opener ++ " unterminated".data)
    ∧ (¬ ∃ a' b' d', ("tail <think> unterminated":String).data
        = a' ++ (opener ++ (b' ++ (closer ++ d'))))
    ∧ clean_response "tail <think> unterminated" = pyStrip "tail <think> unterminated" := by
  have hno : ¬ ∃ a' b' d', ("tail <think> unterminated":String).data
      = a' ++ (opener ++ (b' ++ (closer ++ d'))) :=
    fun hEx =>
      (by decide : ¬ (hasSeg ("tail <think> unterminated":String).data = true))
        (hasSeg_iff.2 hEx)
  exact ⟨by decide, hno,
    unterminated_marker_untouched "tail <think> unterminated"
      "tail ".data " unterminated".data (by decide) hno⟩

/-- C9 counterexample to the claim as stated: the input
`<think>a</think><think>x` contains an opening marker (the second one)
with no subsequent closing marker, but the output is not the trimmed
input — the earlier well-formed segment is still removed. -/
theorem unterminated_marker_cex :
    ("<think>a</think><think>x":String).data
      = "<think>a</think>".data ++ (opener ++ "x".data)
    ∧ ¬ (closer <:+: (opener ++ "x".data))
    ∧ clean_response "<think>a</think><think>x" = "<think>x"
    ∧ pyStrip "<think>a</think><think>x" = "<think>a</think><think>x"
    ∧ clean_response "<think>a</think><think>x" ≠ pyStrip "<think>a</think><think>x" := by
  have hclean : clean_response "<think>a</think><think>x" = "<think>x" := by
    unfold clean_response
    rw [(by decide : ("<think>a</think><think>x":String).data
          = [] ++ (opener ++ ("a".data ++ (closer ++ "<think>x".data)))),
      scrub_first [] "a".data "<think>x".data (by decide) (by decide),
      scrub_of_hasSeg_false (by decide)]
    decide
  have hstrip : pyStrip "<think>a</think><think>x" = "<think>a</think><think>x" := by
    decide
  refine ⟨by decide, by decide, hclean, hstrip, ?_⟩
  rw [hclean, hstrip]
  decide

theorem clean_response_think_only : clean_response "<think>only reasoning</think>" = "" := by
  unfold clean_response
  rw [(by decide : ("<think>only reasoning</think>":String).data
        = [] ++ (opener ++ ("only reasoning".data ++ (closer ++ ([]:List Char))))),
    scrub_first [] "only reasoning".data [] (by decide) (by decide),
    scrub_nil]
  decide

/-- C10: the column rendering suppresses all derived metrics (response
time, word count, words/second) for every result whose text is empty or
begins with `"Error"` — including the result of a fully successful
status-200 call whose sanitized content is empty or happens to begin with
`"Error"`, which is therefore indistinguishable from a failed call in the
rendered column. -/
theorem metrics_suppressed (out : String) (t : ℚ)
    (h : out = "" ∨ "Error".data.isPrefixOf out.data = true) :
    (renderColumn out t).metrics = none
    ∧ (∀ (prompt model rawBody content : String) (temperature elapsed : ℚ)
        (max_tokens : Nat),
        (clean_response content = "" ∨
          "Error".data.isPrefixOf (clean_response content).data = true) →
        (renderColumn
            (call_groq prompt model temperature max_tokens
              (.completed ⟨200, rawBody, .ok content⟩ elapsed)).1
            (call_groq prompt model temperature max_tokens
              (.completed ⟨200, rawBody, .ok content⟩ elapsed)).2).metrics = none) := by
  refine ⟨renderColumn_metrics_none out t h, ?_⟩
  intro prompt model rawBody content temperature elapsed max_tokens hcc
  rw [call_groq_200_ok]
  exact renderColumn_metrics_none (clean_response content) elapsed hcc

/-- C10 witness: an error string, and a successful call whose content
sanitizes to the empty string, both render without metrics. -/
theorem metrics_suppressed_witness :
    (("Error: 500 - boom":String) = ""
      ∨ "Error".data.isPrefixOf ("Error: 500 - boom":String).data = true)
    ∧ (renderColumn "Error: 500 - boom" (3/2)).metrics = none
    ∧ (clean_response "<think>only reasoning</think>" = ""
      ∨ "Error".data.isPrefixOf (clean_response "<think>only reasoning</think>").data = true)
    ∧ (renderColumn
        (call_groq "Say hi" "qwen/qwen3-32b" (7/10) 400
          (.completed ⟨200, "", .ok "<think>only reasoning</think>"⟩ 1)).1
        (call_groq "Say hi" "qwen/qwen3-32b" (7/10) 400
          (.completed ⟨200, "", .ok "<think>only reasoning</think>"⟩ 1)).2).metrics
        = none :=
  ⟨Or.inr (by decide),
    (metrics_suppressed "Error: 500 - boom" (3/2) (Or.inr (by decide))).1,
    Or.inl clean_response_think_only,
    (metrics_suppressed "Error: 500 - boom" (3/2) (Or.inr (by decide))).2
      "Say hi" "qwen/qwen3-32b" "" "<think>only reasoning</think>" (7/10) 1 400
      (Or.inl clean_response_think_only)⟩
